import Mathlib

/-!
# Verification of the backup-monitor canary round-trip core

Shallow embedding of `src/backup_monitor/backup_monitor.py` (the draft the
frozen claims cite): the `Canary` data model, the JSON encoder/decoder pair
(`CanaryEncoder.default`, `CanaryDecoder.object_hook`), the per-target
monitoring cycle (`BackupMonitor.monitor`) and the top-level run over the
configured target list (`monitor`).

Modelling conventions:
* Python `datetime` values are embedded as `PyDateTime` records of civil
  fields plus an optional UTC-offset (in minutes); `datetime.isoformat` and
  `datetime.fromisoformat` are implemented over them character by character.
  The parser covers the grammar of `isoformat` output
  (`YYYY-MM-DD[{T,space}HH:MM[:SS[.ffffff]][+HH:MM or -HH:MM]]`) with the
  same range validation Python applies; exotic input forms accepted by newer
  CPython (such as `Z` suffixes or short fractions) are outside the modelled
  subset and never arise in the program's own files.
* Python floats are embedded as exact rationals (`ℚ`).
* JSON documents are embedded at the parsed-value level (`Json`); the JSON
  text layer of the standard library is a faithful bijection on these values
  and is not re-modelled.  Python dicts are association lists where a later
  duplicate key shadows an earlier one.
* External effects (the `rclone` subprocess calls, the local scratch files
  inside the per-cycle temporary directory, `boto3` metric puts, the clock)
  are supplied by a `CycleEnv` record describing one cycle's environment;
  each fallible call site reads its outcome from the environment.  Local
  temp-file writes inside the managed `tempfile.TemporaryDirectory` are
  assumed to succeed.
* Raised Python exceptions are values of `PyExc`; a function that can raise
  returns `Except PyExc _`.
-/

/-- Python exception kinds raised (or named by the spec) in the modelled
code paths.  `malformedCanaryError` is the exception class the spec's error
taxonomy names; no class of that name exists anywhere under `src/`, so it is
modelled from the spec and is never produced by the embedded code: it exists
only so that spec-level statements about it can be written down. -/
inductive PyExc where
  | keyError (key : String)
  | valueError
  | typeError
  | attributeError
  | fileNotFoundError
  | osError
  | jsonDecodeError
  | clientError
  | malformedCanaryError
deriving DecidableEq, Repr

/-! ## Decimal digit utilities (Python `%0*d` formatting and digit parsing) -/

/-- The ASCII character of a decimal digit. -/
def digitChar (n : Nat) : Char := Char.ofNat (48 + n)

/-- Read one ASCII decimal digit back, as CPython's ISO parser does. -/
def charDigit (c : Char) : Option Nat :=
  if 48 ≤ c.toNat ∧ c.toNat ≤ 57 then some (c.toNat - 48) else none

/-- Zero-padded fixed-width decimal rendering: `padDigits w n` is the digit
list of `n` printed as `%0*d` with width `w` (for `n < 10 ^ w`). -/
def padDigits : Nat → Nat → List Char
  | 0, _ => []
  | w + 1, n => digitChar (n / 10 ^ w) :: padDigits w (n % 10 ^ w)

/-- Parse exactly `w` decimal digits from the front of a character list,
returning the value and the rest. -/
def parseDigits : Nat → List Char → Option (Nat × List Char)
  | 0, cs => some (0, cs)
  | _ + 1, [] => none
  | w + 1, c :: cs =>
    match charDigit c with
    | none => none
    | some d =>
      match parseDigits w cs with
      | none => none
      | some (v, rest) => some (d * 10 ^ w + v, rest)

/-- Consume one expected literal character. -/
def expectChar (c : Char) : List Char → Option (List Char)
  | [] => none
  | c' :: cs => if c' = c then some cs else none

/-! ## Python `datetime` model -/

/-- A Python `datetime` value: civil fields plus the timezone offset of its
`tzinfo` in minutes (`none` for a naive datetime; `some 0` for
`timezone.utc`). -/
structure PyDateTime where
  year : Nat
  month : Nat
  day : Nat
  hour : Nat
  minute : Nat
  second : Nat
  microsecond : Nat
  tz : Option Int
deriving DecidableEq, Repr

/-- Gregorian leap-year test. -/
def isLeapYear (y : Nat) : Bool :=
  y % 4 = 0 ∧ (y % 100 ≠ 0 ∨ y % 400 = 0)

/-- Days in a month of the proleptic Gregorian calendar. -/
def daysInMonth (y m : Nat) : Nat :=
  if m = 2 then (if isLeapYear y then 29 else 28)
  else if m = 4 ∨ m = 6 ∨ m = 9 ∨ m = 11 then 30 else 31

/-- The range validation CPython's `datetime` constructor enforces. -/
def PyDateTime.valid (t : PyDateTime) : Prop :=
  1 ≤ t.year ∧ t.year ≤ 9999 ∧ 1 ≤ t.month ∧ t.month ≤ 12 ∧
  1 ≤ t.day ∧ t.day ≤ daysInMonth t.year t.month ∧
  t.hour ≤ 23 ∧ t.minute ≤ 59 ∧ t.second ≤ 59 ∧ t.microsecond ≤ 999999 ∧
  (∀ off ∈ t.tz, off.natAbs ≤ 1439)

instance (t : PyDateTime) : Decidable t.valid := by
  unfold PyDateTime.valid
  exact inferInstance

/-- The offset suffix `datetime.isoformat` prints for an aware datetime
(`+HH:MM` or `-HH:MM`), and nothing for a naive one. -/
def offsetChars : Option Int → List Char
  | none => []
  | some off =>
    (if off < 0 then '-' else '+') ::
      (padDigits 2 (off.natAbs / 60) ++ ':' :: padDigits 2 (off.natAbs % 60))

/-- `datetime.isoformat`: `YYYY-MM-DDTHH:MM:SS`, a `.ffffff` fraction only
when the microsecond field is nonzero, then the offset suffix. -/
def isoformat (t : PyDateTime) : String :=
  String.mk
    (padDigits 4 t.year ++ '-' :: padDigits 2 t.month ++ '-' :: padDigits 2 t.day ++
      'T' :: padDigits 2 t.hour ++ ':' :: padDigits 2 t.minute ++ ':' :: padDigits 2 t.second ++
      (if t.microsecond = 0 then [] else '.' :: padDigits 6 t.microsecond) ++
      offsetChars t.tz)

/-- Parse the optional `.ffffff` fraction (microseconds). -/
def parseFraction : List Char → Option (Nat × List Char)
  | '.' :: cs => parseDigits 6 cs
  | cs => some (0, cs)

/-- Parse the optional `:SS[.ffffff]` part after `HH:MM`. -/
def parseSecondFrac : List Char → Option (Nat × Nat × List Char)
  | ':' :: cs =>
    match parseDigits 2 cs with
    | none => none
    | some (ss, rest) =>
      match parseFraction rest with
      | none => none
      | some (f, rest2) => some (ss, f, rest2)
  | cs => some (0, 0, cs)

/-- Parse the optional trailing timezone offset (`+HH:MM` / `-HH:MM`), with
CPython's bound of strictly less than 24 hours. -/
def parseOffset : List Char → Option (Option Int × List Char)
  | [] => some (none, [])
  | c :: cs =>
    if c = '+' ∨ c = '-' then
      match parseDigits 2 cs with
      | none => none
      | some (oh, rest) =>
        match expectChar ':' rest with
        | none => none
        | some rest2 =>
          match parseDigits 2 rest2 with
          | none => none
          | some (om, rest3) =>
            if oh ≤ 23 ∧ om ≤ 59 then
              some (some (if c = '-' then -((oh * 60 + om : Nat) : Int)
                          else ((oh * 60 + om : Nat) : Int)), rest3)
            else none
    else none

/-- `datetime.fromisoformat` on a character list: fixed-position date, an
optional time part after a `T` or space separator, an optional offset, and
the same range checks CPython performs (raising `ValueError` — here `none` —
on any violation or leftover input). -/
def fromIsoChars (cs : List Char) : Option PyDateTime :=
  match parseDigits 4 cs with
  | none => none
  | some (y, cs1) =>
    match expectChar '-' cs1 with
    | none => none
    | some cs2 =>
      match parseDigits 2 cs2 with
      | none => none
      | some (mo, cs3) =>
        match expectChar '-' cs3 with
        | none => none
        | some cs4 =>
          match parseDigits 2 cs4 with
          | none => none
          | some (d, cs5) =>
            if 1 ≤ y ∧ 1 ≤ mo ∧ mo ≤ 12 ∧ 1 ≤ d ∧ d ≤ daysInMonth y mo then
              match cs5 with
              | [] => some ⟨y, mo, d, 0, 0, 0, 0, none⟩
              | c :: cs6 =>
                if c = 'T' ∨ c = ' ' then
                  match parseDigits 2 cs6 with
                  | none => none
                  | some (hh, cs7) =>
                    match expectChar ':' cs7 with
                    | none => none
                    | some cs8 =>
                      match parseDigits 2 cs8 with
                      | none => none
                      | some (mi, cs9) =>
                        match parseSecondFrac cs9 with
                        | none => none
                        | some (ss, f, cs10) =>
                          match parseOffset cs10 with
                          | none => none
                          | some (tz, cs11) =>
                            if cs11 = [] ∧ hh ≤ 23 ∧ mi ≤ 59 ∧ ss ≤ 59 then
                              some ⟨y, mo, d, hh, mi, ss, f, tz⟩
                            else none
                else none
            else none

/-- `datetime.fromisoformat` on a string. -/
def fromisoformat (s : String) : Option PyDateTime :=
  fromIsoChars s.data

/-- Days since the Unix epoch of a civil date (proleptic Gregorian),
the standard days-from-civil computation. -/
def daysFromCivil (y m d : Int) : Int :=
  let y' : Int := if m ≤ 2 then y - 1 else y
  let era : Int := (if 0 ≤ y' then y' else y' - 399) / 400
  let yoe : Int := y' - era * 400
  let mp : Int := if 2 < m then m - 3 else m + 9
  let doy : Int := (153 * mp + 2) / 5 + d - 1
  let doe : Int := yoe * 365 + yoe / 4 - yoe / 100 + doy
  era * 146097 + doe - 719468

/-- Microseconds since the Unix epoch of a datetime (offset applied for an
aware value; for a naive value this is the local-civil microsecond count,
which is what Python's naive-minus-naive subtraction effectively uses). -/
def PyDateTime.epochMicro (t : PyDateTime) : Int :=
  ((((daysFromCivil t.year t.month t.day * 24 + t.hour) * 60 + t.minute) * 60 + t.second)
      * 1000000 + t.microsecond)
    - (match t.tz with
       | some off => off * 60000000
       | none => 0)

/-- Python datetime subtraction: a `timedelta` measured in microseconds;
mixing an aware and a naive operand raises `TypeError`. -/
def pyDateTimeSub (a b : PyDateTime) : Except PyExc Int :=
  match a.tz, b.tz with
  | some _, some _ => .ok (a.epochMicro - b.epochMicro)
  | none, none => .ok (a.epochMicro - b.epochMicro)
  | _, _ => .error .typeError

/-- `timedelta.total_seconds()`, exact (floats are modelled as rationals). -/
def totalSeconds (micro : Int) : ℚ :=
  (micro : ℚ) / 1000000

/-! ## JSON values and Python dicts -/

/-- A parsed JSON value (Python numbers — int or float — as exact rationals;
objects as insertion-ordered association lists). -/
inductive Json where
  | null
  | bool (b : Bool)
  | num (q : ℚ)
  | str (s : String)
  | arr (elems : List Json)
  | obj (fields : List (String × Json))

/-- Python dict lookup on an association list: a later duplicate key shadows
an earlier one, as when the JSON parser builds a dict. -/
def dictGet (fields : List (String × Json)) (k : String) : Option Json :=
  fields.reverse.lookup k

/-! ## Canary data model and codec (`CanaryEncoder.default`,
`CanaryDecoder.object_hook`) -/

/-- The `Canary` record.  The four identity fields and the two size fields
hold whatever (JSON) value was assigned — Python does not type-check them —
while `timestamp` always holds a `datetime` in every modelled code path
(freshly created canaries get `datetime.now(timezone.utc)`; decoded ones get
the result of `datetime.fromisoformat`). -/
structure Canary where
  storage : Json
  rclone_remote : Json
  computer : Json
  timestamp : PyDateTime
  user : Json
  num_objects : Json
  total_bytes : Json

/-- `CanaryEncoder.default`: the canary's `__dict__` (insertion order of
`Canary.__init__`) with `timestamp` replaced by its `datetime.isoformat`
string and the `_type` discriminator appended. -/
def CanaryEncoder_default (c : Canary) : List (String × Json) :=
  [("storage", c.storage),
   ("rclone_remote", c.rclone_remote),
   ("computer", c.computer),
   ("timestamp", .str (isoformat c.timestamp)),
   ("user", c.user),
   ("num_objects", c.num_objects),
   ("total_bytes", c.total_bytes),
   ("_type", .str "Canary")]

/-- Result of `CanaryDecoder.object_hook` on one dict: either the dict
passed through unchanged or a reconstructed `Canary`. -/
inductive HookResult where
  | dict (fields : List (String × Json))
  | canary (c : Canary)

/-- Python `obj[k]` on a dict: the value, or a raised `KeyError`. -/
def getItem (fields : List (String × Json)) (k : String) : Except PyExc Json :=
  match dictGet fields k with
  | some v => .ok v
  | none => .error (.keyError k)

/-- `datetime.fromisoformat` as called on an arbitrary JSON value:
`TypeError` on a non-string argument, `ValueError` on an unparseable
string. -/
def pyFromisoformat : Json → Except PyExc PyDateTime
  | .str s =>
    match fromisoformat s with
    | some t => .ok t
    | none => .error .valueError
  | _ => .error .typeError

/-- `CanaryDecoder.object_hook`: a dict without a `_type` key, or whose
`_type` value is not the string `"Canary"`, is returned unchanged; a
`Canary`-tagged dict is decoded field by field in source order (`storage`,
`rclone_remote`, `computer`, `timestamp`, `user`, `num_objects`,
`total_bytes`), raising `KeyError` at the first absent field and a
`ValueError` / `TypeError` from `fromisoformat` on a bad timestamp. -/
def object_hook (fields : List (String × Json)) : Except PyExc HookResult :=
  match dictGet fields "_type" with
  | none => .ok (.dict fields)
  | some t =>
    match t with
    | .str tname =>
      if tname = "Canary" then
        match getItem fields "storage" with
        | .error e => .error e
        | .ok storage =>
          match getItem fields "rclone_remote" with
          | .error e => .error e
          | .ok rclone_remote =>
            match getItem fields "computer" with
            | .error e => .error e
            | .ok computer =>
              match getItem fields "timestamp" with
              | .error e => .error e
              | .ok tsRaw =>
                match pyFromisoformat tsRaw with
                | .error e => .error e
                | .ok timestamp =>
                  match getItem fields "user" with
                  | .error e => .error e
                  | .ok user =>
                    match getItem fields "num_objects" with
                    | .error e => .error e
                    | .ok num_objects =>
                      match getItem fields "total_bytes" with
                      | .error e => .error e
                      | .ok total_bytes =>
                        .ok (.canary ⟨storage, rclone_remote, computer,
                                      timestamp, user, num_objects, total_bytes⟩)
      else .ok (.dict fields)
    | _ => .ok (.dict fields)

/-- A value produced by `json.load` with `cls=CanaryDecoder`: a decoded
`Canary`, or any other Python/JSON value passed through. -/
inductive PyObj where
  | canary (c : Canary)
  | plain (j : Json)

/-- `json.load(..., cls=CanaryDecoder)` on an already-parsed document.  The
standard library applies `object_hook` to each parsed dict; every document
this program reads is a single top-level object (or a non-object value), so
the hook is applied at the top level — no modelled flow nests a tagged dict
inside another value. -/
def json_load (j : Json) : Except PyExc PyObj :=
  match j with
  | .obj fields =>
    match object_hook fields with
    | .error e => .error e
    | .ok (.dict f) => .ok (.plain (.obj f))
    | .ok (.canary c) => .ok (.canary c)
  | v => .ok (.plain v)

/-! ## Module constants and remote paths -/

/-- Top-level remote directory holding all canary files. -/
def BACKUP_REMOTE_BASE : String := "backup-monitor"

/-- File name of both the generated and the restored canary object. -/
def CANARY_FILENAME : String := "canary.json"

/-- Cloudwatch namespace every metric is put under. -/
def CLOUDWATCH_NAMESPACE : String := "CloudberryBackup"

/-- One entry of the configuration list (`{"computer":…,"storage":…,"user":…}`). -/
structure TargetConfig where
  computer : String
  storage : String
  user : String

/-- The `BackupMonitor` object state set up by `__init__`. -/
structure BackupMonitor where
  computer : String
  storage : String
  user : String
  rclone_remote : String

/-- `BackupMonitor.__init__`: stores the triple and derives
`rclone_remote = f"{storage}-{user}"`. -/
def BackupMonitor.init (computer storage user : String) : BackupMonitor :=
  { computer := computer, storage := storage, user := user,
    rclone_remote := storage ++ "-" ++ user }

/-- `BackupMonitor.get_remote_working_path`:
`f"{rclone_remote}:/{BACKUP_REMOTE_BASE}/{computer}/{rclone_remote}"`. -/
def get_remote_working_path (bm : BackupMonitor) : String :=
  bm.rclone_remote ++ ":/" ++ BACKUP_REMOTE_BASE ++ "/" ++ bm.computer ++ "/" ++
    bm.rclone_remote

/-- The remote directory the generated canary is copied into
(`generate_canary_file`'s `remote_generated_path`). -/
def remote_generated_path (bm : BackupMonitor) : String :=
  get_remote_working_path bm ++ "/generated"

/-- The remote object the generated canary ends up at: `rclone copy` places
the local file `canary.json` inside `remote_generated_path`. -/
def remote_generated_object (bm : BackupMonitor) : String :=
  remote_generated_path bm ++ "/" ++ CANARY_FILENAME

/-- The remote object the restored canary is fetched from
(`load_restored_canary_file`'s `remote_restored_file`). -/
def remote_restored_file (bm : BackupMonitor) : String :=
  get_remote_working_path bm ++ "/restored/" ++ CANARY_FILENAME

/-! ## One monitoring cycle over an explicit environment -/

/-- External behaviour of one target's cycle: the clock reading, the
outcomes of the three `rclone` subprocess invocations (`size`, upload
`copy`, download `copy`) — the code never inspects `rclone`'s exit status,
so a failure outcome here models the subprocess invocation itself raising
(e.g. `OSError`) or, for `size`, unusable stdout failing `json.loads` —
the restored document present after the fetch (`none`: no file was
produced, so `open` raises `FileNotFoundError`), and the outcome of each
successive `put_metric_data` call (`none` = success; an exhausted list means
the remaining calls succeed). -/
structure CycleEnv where
  now : PyDateTime
  sizeResult : Except PyExc (Int × Int)
  copyUpResult : Except PyExc Unit
  fetchResult : Except PyExc Unit
  restoredContent : Option Json
  putResults : List (Option PyExc)

/-- A `CloudwatchMetric` object (`name`, `value`, `unit`). -/
structure CloudwatchMetric where
  name : String
  value : Json
  unit : String

/-- One `put_metric_data` record actually sent to cloudwatch: namespace,
metric name, the three dimensions, value and unit. -/
structure MetricDatum where
  nspace : String
  metricName : String
  dimensions : List (String × String)
  value : Json
  unit : String

/-- The `put_metric_data` payload `put_cloudwatch_metrics` builds for one
metric: namespace `CloudberryBackup` and dimensions
`Computer`/`Storage`/`StorageUser` from the monitor's state. -/
def metricDatum (bm : BackupMonitor) (m : CloudwatchMetric) : MetricDatum :=
  { nspace := CLOUDWATCH_NAMESPACE,
    metricName := m.name,
    dimensions := [("Computer", bm.computer), ("Storage", bm.storage),
                   ("StorageUser", bm.user)],
    value := m.value,
    unit := m.unit }

/-- `BackupMonitor.put_cloudwatch_metrics`: puts the metrics one by one in a
plain `for` loop with no exception handling — the result is the list of
records actually put, and the exception (if some call raised) which aborts
the loop with the remaining metrics unsent. -/
def put_cloudwatch_metrics (bm : BackupMonitor) :
    List CloudwatchMetric → List (Option PyExc) → List MetricDatum × Option PyExc
  | [], _ => ([], none)
  | _ :: _, (some e) :: _ => ([], some e)
  | m :: ms, none :: os =>
    let r := put_cloudwatch_metrics bm ms os
    (metricDatum bm m :: r.1, r.2)
  | m :: ms, [] =>
    let r := put_cloudwatch_metrics bm ms []
    (metricDatum bm m :: r.1, r.2)

/-- `BackupMonitor.create_canary`: queries `get_remote_size` (which can
raise) and builds the canary from the monitor's identity, the current UTC
time, and the returned `(count, bytes)`. -/
def create_canary (bm : BackupMonitor) (env : CycleEnv) : Except PyExc Canary :=
  match env.sizeResult with
  | .error e => .error e
  | .ok (n, b) =>
    .ok { storage := .str bm.storage,
          rclone_remote := .str bm.rclone_remote,
          computer := .str bm.computer,
          timestamp := env.now,
          user := .str bm.user,
          num_objects := .num (n : ℚ),
          total_bytes := .num (b : ℚ) }

/-- `BackupMonitor.generate_canary_file`: create the canary, dump it to the
scratch file, `rclone copy` it up (the subprocess invocation can raise), and
return the in-memory canary. -/
def generate_canary_file (bm : BackupMonitor) (env : CycleEnv) : Except PyExc Canary :=
  match create_canary bm env with
  | .error e => .error e
  | .ok c =>
    match env.copyUpResult with
    | .error e => .error e
    | .ok _ => .ok c

/-- `BackupMonitor.load_restored_canary_file`: `rclone copy` the restored
object down (the invocation can raise; its exit status is never checked),
then `open` the local copy — raising `FileNotFoundError` when no file was
produced — and parse it with `CanaryDecoder`. -/
def load_restored_canary_file (_bm : BackupMonitor) (env : CycleEnv) :
    Except PyExc PyObj :=
  match env.fetchResult with
  | .error e => .error e
  | .ok _ =>
    match env.restoredContent with
    | none => .error .fileNotFoundError
    | some j => json_load j

/-- `BackupMonitor.monitor`: one target's cycle.  Generate, load the
restored canary, subtract the timestamps (`restored_canary.timestamp` on a
non-`Canary` result raises `AttributeError`), and put the three metrics.
There is no exception handling in this method: the returned `Option PyExc`
is the exception propagating out of it, alongside the metric records that
were put before the failure. -/
def BackupMonitor.monitor (bm : BackupMonitor) (env : CycleEnv) :
    List MetricDatum × Option PyExc :=
  match generate_canary_file bm env with
  | .error e => ([], some e)
  | .ok generated_canary =>
    match load_restored_canary_file bm env with
    | .error e => ([], some e)
    | .ok (.plain _) => ([], some .attributeError)
    | .ok (.canary restored_canary) =>
      match pyDateTimeSub generated_canary.timestamp restored_canary.timestamp with
      | .error e => ([], some e)
      | .ok restore_lag =>
        put_cloudwatch_metrics bm
          [{ name := "RestoreLag", value := .num (totalSeconds restore_lag),
             unit := "Seconds" },
           { name := "FileCount", value := generated_canary.num_objects,
             unit := "Count" },
           { name := "TotalBytes", value := generated_canary.total_bytes,
             unit := "Bytes" }]
          env.putResults

/-- The body of the top-level loop for one config entry. -/
def runTarget (p : TargetConfig × CycleEnv) : List MetricDatum × Option PyExc :=
  (BackupMonitor.init p.1.computer p.1.storage p.1.user).monitor p.2

/-- The top-level `monitor(config_file_path)`: iterate the configured
targets in order inside a single `try` whose handler logs and **re-raises**.
The result pairs each processed target's computer name with the metric
records its cycle put; the first exception stops the loop and propagates
(the remaining targets are never reached). -/
def monitor : List (TargetConfig × CycleEnv) →
    List (String × List MetricDatum) × Option PyExc
  | [] => ([], none)
  | p :: rest =>
    let r := runTarget p
    match r.2 with
    | some e => ([(p.1.computer, r.1)], some e)
    | none =>
      let rr := monitor rest
      ((p.1.computer, r.1) :: rr.1, rr.2)

/-! ## Concrete fixtures used by witnesses and counterexamples -/

/-- `2024-01-02T10:00:00+00:00`, the generated-canary timestamp of the
spec's worked example. -/
def dtGen : PyDateTime := ⟨2024, 1, 2, 10, 0, 0, 0, some 0⟩

/-- `2024-01-02T09:55:30+00:00`, the restored-canary timestamp of the
spec's worked example. -/
def dtRes : PyDateTime := ⟨2024, 1, 2, 9, 55, 30, 0, some 0⟩

/-- A restored canary as a previous cycle would have written it. -/
def canaryRes : Canary :=
  ⟨.str "dropbox", .str "dropbox-johnl", .str "comp1", dtRes, .str "johnl",
   .num 42, .num 1048576⟩

/-- The restored `canary.json` document: the encoder's output for
`canaryRes`. -/
def restoredDoc : Json := .obj (CanaryEncoder_default canaryRes)

/-- Three configured targets. -/
def cfg1 : TargetConfig := ⟨"comp1", "dropbox", "johnl"⟩

/-- Second configured target. -/
def cfg2 : TargetConfig := ⟨"comp2", "gdrive", "johnl"⟩

/-- Third configured target. -/
def cfg3 : TargetConfig := ⟨"comp3", "onedrive", "johnl"⟩

/-- A fully healthy cycle environment: clock at `dtGen`, remote size
`(42, 1048576)`, all transport calls succeed, the restored document is
present and well-formed, every metric put succeeds. -/
def envOK : CycleEnv :=
  { now := dtGen, sizeResult := .ok (42, 1048576), copyUpResult := .ok (),
    fetchResult := .ok (), restoredContent := some restoredDoc, putResults := [] }

/-- Like `envOK` but the download `rclone` invocation itself raises. -/
def envFetchRaises : CycleEnv := { envOK with fetchResult := .error .osError }

/-- Like `envOK` but the fetch produces no file (the restored object does
not exist yet), so `open` raises `FileNotFoundError`. -/
def envNoRestored : CycleEnv := { envOK with restoredContent := none }

/-- Like `envOK` but the second `put_metric_data` call raises. -/
def envPutFails : CycleEnv :=
  { envOK with putResults := [none, some .clientError] }

/-- The seven fields `CanaryDecoder.object_hook` reads from a
`Canary`-tagged dict, in the order the source reads them. -/
def requiredCanaryKeys : List String :=
  ["storage", "rclone_remote", "computer", "timestamp", "user",
   "num_objects", "total_bytes"]

/-- `2024-01-02T09:00:00+00:00`: a generated timestamp *earlier* than the
restored canary's (clock skew towards the past). -/
def dtEarly : PyDateTime := ⟨2024, 1, 2, 9, 0, 0, 0, some 0⟩

/-- Like `envOK` but the clock reads `dtEarly`, so the computed lag is
negative. -/
def envLagNeg : CycleEnv := { envOK with now := dtEarly }

/-! ## Digit formatting / parsing roundtrip lemmas -/

/-- Reading back a printed decimal digit recovers its value. -/
theorem charDigit_digitChar : ∀ d : Nat, d < 10 → charDigit (digitChar d) = some d := by
  decide

/-- Powers of ten used in the fixed-width fields. -/
theorem pow10_2 : (10 : Nat) ^ 2 = 100 := by norm_num

/-- Ten to the fourth. -/
theorem pow10_4 : (10 : Nat) ^ 4 = 10000 := by norm_num

/-- Ten to the sixth. -/
theorem pow10_6 : (10 : Nat) ^ 6 = 1000000 := by norm_num

/-- Parsing a zero-padded fixed-width number recovers it and leaves the
rest of the input untouched. -/
theorem parseDigits_padDigits (w : Nat) :
    ∀ (n : Nat) (rest : List Char), n < 10 ^ w →
      parseDigits w (padDigits w n ++ rest) = some (n, rest) := by
  induction w with
  | zero =>
    intro n rest h
    simp only [pow_zero, Nat.lt_one_iff] at h
    subst h
    rfl
  | succ w ih =>
    intro n rest h
    have hpos : 0 < 10 ^ w := Nat.pos_pow_of_pos w (by norm_num)
    have hd : n / 10 ^ w < 10 :=
      (Nat.div_lt_iff_lt_mul hpos).mpr (by rw [mul_comm, ← pow_succ]; exact h)
    have hm : n % 10 ^ w < 10 ^ w := Nat.mod_lt _ hpos
    show parseDigits (w + 1)
        (digitChar (n / 10 ^ w) :: (padDigits w (n % 10 ^ w) ++ rest)) = some (n, rest)
    rw [parseDigits, charDigit_digitChar _ hd, ih _ rest hm]
    have hdm := Nat.div_add_mod n (10 ^ w)
    rw [Nat.mul_comm] at hdm
    show some (n / 10 ^ w * 10 ^ w + n % 10 ^ w, rest) = some (n, rest)
    rw [hdm]

/-- `expectChar` consumes the character it expects. -/
theorem expectChar_cons_self (c : Char) (cs : List Char) :
    expectChar c (c :: cs) = some cs := by
  simp [expectChar]

/-- An empty fraction part parses as zero microseconds. -/
theorem parseFraction_nil : parseFraction [] = some (0, []) := rfl

/-- A fraction part starting with `+` (an offset follows) parses as zero. -/
theorem parseFraction_plus (cs : List Char) :
    parseFraction ('+' :: cs) = some (0, '+' :: cs) := rfl

/-- A fraction part starting with `-` (an offset follows) parses as zero. -/
theorem parseFraction_minus (cs : List Char) :
    parseFraction ('-' :: cs) = some (0, '-' :: cs) := rfl

/-- Whatever the offset suffix is, it never starts with a dot, so the
fraction parser passes it through with zero microseconds. -/
theorem parseFraction_offsetChars (tz : Option Int) :
    parseFraction (offsetChars tz) = some (0, offsetChars tz) := by
  cases tz with
  | none => rfl
  | some off =>
    rw [offsetChars]
    by_cases hneg : off < 0
    · rw [if_pos hneg, parseFraction_minus]
    · rw [if_neg hneg, parseFraction_plus]

/-- Reading back a printed offset suffix recovers the offset exactly and
consumes the whole remaining input. -/
theorem parseOffset_offsetChars (tz : Option Int)
    (h : ∀ off ∈ tz, off.natAbs ≤ 1439) :
    parseOffset (offsetChars tz) = some (tz, []) := by
  cases tz with
  | none => rfl
  | some off =>
    have hoff : off.natAbs ≤ 1439 := h off rfl
    have hdm : off.natAbs / 60 * 60 + off.natAbs % 60 = off.natAbs := by
      have := Nat.div_add_mod off.natAbs 60
      omega
    have e1 : parseDigits 2 (padDigits 2 (off.natAbs / 60) ++
        ':' :: padDigits 2 (off.natAbs % 60)) =
        some (off.natAbs / 60, ':' :: padDigits 2 (off.natAbs % 60)) :=
      parseDigits_padDigits 2 _ _ (by rw [pow10_2]; omega)
    have e2 : parseDigits 2 (padDigits 2 (off.natAbs % 60)) =
        some (off.natAbs % 60, []) := by
      rw [show padDigits 2 (off.natAbs % 60) = padDigits 2 (off.natAbs % 60) ++ []
            from (List.append_nil _).symm]
      exact parseDigits_padDigits 2 _ _ (by rw [pow10_2]; omega)
    have hrange : off.natAbs / 60 ≤ 23 ∧ off.natAbs % 60 ≤ 59 := by omega
    rw [offsetChars]
    by_cases hneg : off < 0
    · rw [if_pos hneg, parseOffset, if_pos (Or.inr rfl)]
      simp only [e1, e2, expectChar_cons_self, if_pos hrange, if_true, if_false,
        Option.some.injEq, Prod.mk.injEq, and_true]
      omega
    · rw [if_neg hneg, parseOffset, if_pos (Or.inl rfl)]
      simp only [e1, e2, expectChar_cons_self, if_pos hrange,
        if_neg (show ¬('+' = '-') by decide), if_true, if_false,
        Option.some.injEq, Prod.mk.injEq, and_true]
      omega

/-- A fraction part starting with a dot parses six microsecond digits. -/
theorem parseFraction_dot (cs : List Char) :
    parseFraction ('.' :: cs) = parseDigits 6 cs := rfl

/-- Unfolding of the second-and-fraction parser on a colon-led input. -/
theorem parseSecondFrac_colon (cs : List Char) :
    parseSecondFrac (':' :: cs) =
      match parseDigits 2 cs with
      | none => none
      | some (ss, rest) =>
        match parseFraction rest with
        | none => none
        | some (f, rest2) => some (ss, f, rest2) := rfl

/-- No month has more than 31 days. -/
theorem daysInMonth_le_31 (y m : Nat) : daysInMonth y m ≤ 31 := by
  unfold daysInMonth
  split
  · split <;> omega
  · split <;> omega

/-- The ISO-8601 codec round-trip: parsing the printed form of any valid
datetime recovers it exactly — every civil field, the microseconds, and the
offset. -/
theorem fromisoformat_isoformat (t : PyDateTime) (h : t.valid) :
    fromisoformat (isoformat t) = some t := by
  obtain ⟨h1, h2, h3, h4, h5, h6, h7, h8, h9, h10, h11⟩ := h
  have hd31 := daysInMonth_le_31 t.year t.month
  have ey : ∀ rest, parseDigits 4 (padDigits 4 t.year ++ rest) = some (t.year, rest) :=
    fun rest => parseDigits_padDigits 4 _ rest (by rw [pow10_4]; omega)
  have emo : ∀ rest, parseDigits 2 (padDigits 2 t.month ++ rest) = some (t.month, rest) :=
    fun rest => parseDigits_padDigits 2 _ rest (by rw [pow10_2]; omega)
  have ed : ∀ rest, parseDigits 2 (padDigits 2 t.day ++ rest) = some (t.day, rest) :=
    fun rest => parseDigits_padDigits 2 _ rest (by rw [pow10_2]; omega)
  have eh : ∀ rest, parseDigits 2 (padDigits 2 t.hour ++ rest) = some (t.hour, rest) :=
    fun rest => parseDigits_padDigits 2 _ rest (by rw [pow10_2]; omega)
  have emi : ∀ rest, parseDigits 2 (padDigits 2 t.minute ++ rest) = some (t.minute, rest) :=
    fun rest => parseDigits_padDigits 2 _ rest (by rw [pow10_2]; omega)
  have es : ∀ rest, parseDigits 2 (padDigits 2 t.second ++ rest) = some (t.second, rest) :=
    fun rest => parseDigits_padDigits 2 _ rest (by rw [pow10_2]; omega)
  have em : ∀ rest, parseDigits 6 (padDigits 6 t.microsecond ++ rest) =
      some (t.microsecond, rest) :=
    fun rest => parseDigits_padDigits 6 _ rest (by rw [pow10_6]; omega)
  have eo := parseOffset_offsetChars t.tz h11
  have efo := parseFraction_offsetChars t.tz
  by_cases hmc : t.microsecond = 0
  · simp only [fromisoformat, isoformat, fromIsoChars, hmc, eq_self_iff_true, if_true,
      List.cons_append, List.append_assoc, List.nil_append,
      ey, emo, ed, eh, emi, es, expectChar_cons_self, parseSecondFrac_colon, efo, eo,
      h1, h3, h4, h5, h6, h7, h8, h9, and_self, and_true, true_and, true_or, or_true]
    rw [← hmc]
  · simp only [fromisoformat, isoformat, fromIsoChars, hmc, eq_self_iff_true, if_false,
      if_true, List.cons_append, List.append_assoc, List.nil_append,
      ey, emo, ed, eh, emi, es, em, expectChar_cons_self, parseSecondFrac_colon,
      parseFraction_dot, efo, eo,
      h1, h3, h4, h5, h6, h7, h8, h9, and_self, and_true, true_and, true_or, or_true]

/-! ## Codec theorems -/

/-- Decoding the encoder's output reconstructs the canary exactly, for any
canary whose timestamp is a constructible datetime. -/
theorem object_hook_encode (c : Canary) (h : c.timestamp.valid) :
    object_hook (CanaryEncoder_default c) = .ok (.canary c) := by
  have hts := fromisoformat_isoformat c.timestamp h
  have e0 : dictGet (CanaryEncoder_default c) "_type" = some (.str "Canary") := rfl
  have e1 : getItem (CanaryEncoder_default c) "storage" = .ok c.storage := rfl
  have e2 : getItem (CanaryEncoder_default c) "rclone_remote" = .ok c.rclone_remote := rfl
  have e3 : getItem (CanaryEncoder_default c) "computer" = .ok c.computer := rfl
  have e4 : getItem (CanaryEncoder_default c) "timestamp" =
      .ok (.str (isoformat c.timestamp)) := rfl
  have e5 : getItem (CanaryEncoder_default c) "user" = .ok c.user := rfl
  have e6 : getItem (CanaryEncoder_default c) "num_objects" = .ok c.num_objects := rfl
  have e7 : getItem (CanaryEncoder_default c) "total_bytes" = .ok c.total_bytes := rfl
  simp only [object_hook, e0, e1, e2, e3, e4, e5, e6, e7, pyFromisoformat, hts,
    eq_self_iff_true, if_true]

/-- C3: for every Canary value `c` with a timezone-aware UTC timestamp (a
valid datetime carrying offset `+00:00`), decoding the encoded form
reconstructs `c` field-for-field — the decoder returns exactly `c`, and the
timestamp string round-trips with exact equality through
`fromisoformat ∘ isoformat` (no precision loss, no timezone ambiguity). -/
theorem canary_codec_roundtrip (c : Canary)
    (hval : c.timestamp.valid) (_hutc : c.timestamp.tz = some 0) :
    object_hook (CanaryEncoder_default c) = .ok (.canary c) ∧
    fromisoformat (isoformat c.timestamp) = some c.timestamp :=
  ⟨object_hook_encode c hval, fromisoformat_isoformat c.timestamp hval⟩

/-- Witness for C3 at the concrete restored canary of the worked example. -/
theorem canary_codec_roundtrip_witness :
    canaryRes.timestamp.valid ∧ canaryRes.timestamp.tz = some 0 ∧
    object_hook (CanaryEncoder_default canaryRes) = .ok (.canary canaryRes) :=
  ⟨by decide, rfl, (canary_codec_roundtrip canaryRes (by decide) rfl).1⟩

/-- C10: a dict with no `_type` key, or whose `_type` value is anything
other than the string `"Canary"`, is returned by the hook unchanged — no
`Canary` is constructed and no error is raised. -/
theorem object_hook_passthrough (fields : List (String × Json))
    (h : ∀ v, dictGet fields "_type" = some v → v ≠ Json.str "Canary") :
    object_hook fields = .ok (.dict fields) := by
  cases e : dictGet fields "_type" with
  | none => simp only [object_hook, e]
  | some v =>
    cases v with
    | str s =>
      by_cases hs : s = "Canary"
      · exact absurd (by rw [hs]) (h _ e)
      · simp only [object_hook, e, if_neg hs]
    | null => simp only [object_hook, e]
    | bool b => simp only [object_hook, e]
    | num q => simp only [object_hook, e]
    | arr xs => simp only [object_hook, e]
    | obj o => simp only [object_hook, e]

/-- Witness for C10 at a dict tagged with a different `_type`. -/
theorem object_hook_passthrough_witness :
    object_hook [("_type", Json.str "Other"), ("x", Json.num 3)] =
      .ok (.dict [("_type", Json.str "Other"), ("x", Json.num 3)]) := by
  apply object_hook_passthrough
  intro v hv
  rw [show dictGet [("_type", Json.str "Other"), ("x", Json.num 3)] "_type" =
        some (Json.str "Other") from rfl] at hv
  cases hv
  intro hc
  injection hc with hs
  exact absurd hs (by decide)

/-- C4 (amended): a `Canary`-tagged document with a required field absent,
or whose timestamp string is not ISO-8601-parseable, fails to deserialize —
but with Python's built-in `KeyError` / `ValueError` / `TypeError`, since no
`MalformedCanaryError` class exists in the code. -/
theorem canary_decode_bad_doc_raises (fields : List (String × Json))
    (htag : dictGet fields "_type" = some (.str "Canary"))
    (hbad : (∃ k ∈ requiredCanaryKeys, dictGet fields k = none) ∨
            (∃ s, dictGet fields "timestamp" = some (.str s) ∧ fromisoformat s = none)) :
    ∃ e, object_hook fields = .error e ∧
      ((∃ k, e = .keyError k) ∨ e = .valueError ∨ e = .typeError) := by
  cases h1 : dictGet fields "storage" with
  | none =>
    exact ⟨.keyError "storage",
      by simp only [object_hook, htag, eq_self_iff_true, if_true, getItem, h1],
      Or.inl ⟨_, rfl⟩⟩
  | some v1 =>
  cases h2 : dictGet fields "rclone_remote" with
  | none =>
    exact ⟨.keyError "rclone_remote",
      by simp only [object_hook, htag, eq_self_iff_true, if_true, getItem, h1, h2],
      Or.inl ⟨_, rfl⟩⟩
  | some v2 =>
  cases h3 : dictGet fields "computer" with
  | none =>
    exact ⟨.keyError "computer",
      by simp only [object_hook, htag, eq_self_iff_true, if_true, getItem, h1, h2, h3],
      Or.inl ⟨_, rfl⟩⟩
  | some v3 =>
  cases h4 : dictGet fields "timestamp" with
  | none =>
    exact ⟨.keyError "timestamp",
      by simp only [object_hook, htag, eq_self_iff_true, if_true, getItem, h1, h2, h3, h4],
      Or.inl ⟨_, rfl⟩⟩
  | some v4 =>
  cases v4 with
  | str s =>
    cases hp : fromisoformat s with
    | none =>
      exact ⟨.valueError,
        by simp only [object_hook, htag, eq_self_iff_true, if_true, getItem,
          h1, h2, h3, h4, pyFromisoformat, hp],
        Or.inr (Or.inl rfl)⟩
    | some ts =>
    cases h5 : dictGet fields "user" with
    | none =>
      exact ⟨.keyError "user",
        by simp only [object_hook, htag, eq_self_iff_true, if_true, getItem,
          h1, h2, h3, h4, pyFromisoformat, hp, h5],
        Or.inl ⟨_, rfl⟩⟩
    | some v5 =>
    cases h6 : dictGet fields "num_objects" with
    | none =>
      exact ⟨.keyError "num_objects",
        by simp only [object_hook, htag, eq_self_iff_true, if_true, getItem,
          h1, h2, h3, h4, pyFromisoformat, hp, h5, h6],
        Or.inl ⟨_, rfl⟩⟩
    | some v6 =>
    cases h7 : dictGet fields "total_bytes" with
    | none =>
      exact ⟨.keyError "total_bytes",
        by simp only [object_hook, htag, eq_self_iff_true, if_true, getItem,
          h1, h2, h3, h4, pyFromisoformat, hp, h5, h6, h7],
        Or.inl ⟨_, rfl⟩⟩
    | some v7 =>
      exfalso
      rcases hbad with ⟨k, hk, hnone⟩ | ⟨s', hs', hparse⟩
      · simp only [requiredCanaryKeys, List.mem_cons, List.not_mem_nil, or_false] at hk
        rcases hk with rfl | rfl | rfl | rfl | rfl | rfl | rfl
        · rw [h1] at hnone; cases hnone
        · rw [h2] at hnone; cases hnone
        · rw [h3] at hnone; cases hnone
        · rw [h4] at hnone; cases hnone
        · rw [h5] at hnone; cases hnone
        · rw [h6] at hnone; cases hnone
        · rw [h7] at hnone; cases hnone
      · rw [h4] at hs'
        injection hs' with hv
        injection hv with hv'
        rw [← hv'] at hparse
        rw [hparse] at hp
        cases hp
  -- non-string timestamp values raise `TypeError` from `fromisoformat`
  | null =>
    exact ⟨.typeError,
      by simp only [object_hook, htag, eq_self_iff_true, if_true, getItem,
        h1, h2, h3, h4, pyFromisoformat],
      Or.inr (Or.inr rfl)⟩
  | bool b =>
    exact ⟨.typeError,
      by simp only [object_hook, htag, eq_self_iff_true, if_true, getItem,
        h1, h2, h3, h4, pyFromisoformat],
      Or.inr (Or.inr rfl)⟩
  | num q =>
    exact ⟨.typeError,
      by simp only [object_hook, htag, eq_self_iff_true, if_true, getItem,
        h1, h2, h3, h4, pyFromisoformat],
      Or.inr (Or.inr rfl)⟩
  | arr xs =>
    exact ⟨.typeError,
      by simp only [object_hook, htag, eq_self_iff_true, if_true, getItem,
        h1, h2, h3, h4, pyFromisoformat],
      Or.inr (Or.inr rfl)⟩
  | obj o =>
    exact ⟨.typeError,
      by simp only [object_hook, htag, eq_self_iff_true, if_true, getItem,
        h1, h2, h3, h4, pyFromisoformat],
      Or.inr (Or.inr rfl)⟩

/-- C4 counterexample: on a `Canary`-tagged document with every required
field absent, deserialization raises `KeyError` (for the first field read),
which is not the spec's `MalformedCanaryError` — no such exception class
exists in the code. -/
theorem canary_decode_raises_keyerror_not_malformed :
    object_hook [("_type", Json.str "Canary")] = .error (.keyError "storage") ∧
    PyExc.keyError "storage" ≠ PyExc.malformedCanaryError :=
  ⟨rfl, by decide⟩

/-- Witness for the amended C4 at a document missing all required fields. -/
theorem canary_decode_bad_doc_raises_witness :
    ∃ e, object_hook [("_type", Json.str "Canary")] = .error e ∧
      ((∃ k, e = .keyError k) ∨ e = .valueError ∨ e = .typeError) :=
  canary_decode_bad_doc_raises [("_type", Json.str "Canary")] rfl
    (Or.inl ⟨"storage", by decide, rfl⟩)

/-! ## Orchestration theorems -/

/-- On a cycle whose generation and load both succeed with an aware restored
timestamp, `BackupMonitor.monitor` reaches the metric-putting stage with
exactly the three metrics built in the source. -/
theorem monitor_reaches_put (bm : BackupMonitor) (env : CycleEnv) (n b : Int)
    (r : Canary)
    (hsize : env.sizeResult = .ok (n, b))
    (hcopy : env.copyUpResult = .ok ())
    (hfetch : env.fetchResult = .ok ())
    (hrest : ∃ rf, env.restoredContent = some (.obj rf) ∧
      object_hook rf = .ok (.canary r))
    (hgtz : ∃ zg, env.now.tz = some zg)
    (hrtz : ∃ zr, r.timestamp.tz = some zr) :
    bm.monitor env = put_cloudwatch_metrics bm
      [{ name := "RestoreLag",
         value := .num (totalSeconds (env.now.epochMicro - r.timestamp.epochMicro)),
         unit := "Seconds" },
       { name := "FileCount", value := .num (n : ℚ), unit := "Count" },
       { name := "TotalBytes", value := .num (b : ℚ), unit := "Bytes" }]
      env.putResults := by
  obtain ⟨rf, hrc, hhook⟩ := hrest
  obtain ⟨zg, hzg⟩ := hgtz
  obtain ⟨zr, hzr⟩ := hrtz
  simp only [BackupMonitor.monitor, generate_canary_file, create_canary, hsize,
    load_restored_canary_file, hcopy, hfetch, hrc, json_load, hhook,
    pyDateTimeSub, hzg, hzr]

/-- A fully successful cycle puts exactly the three metric records and
raises nothing. -/
theorem monitor_success (bm : BackupMonitor) (env : CycleEnv) (n b : Int)
    (r : Canary)
    (hsize : env.sizeResult = .ok (n, b))
    (hcopy : env.copyUpResult = .ok ())
    (hfetch : env.fetchResult = .ok ())
    (hrest : ∃ rf, env.restoredContent = some (.obj rf) ∧
      object_hook rf = .ok (.canary r))
    (hgtz : ∃ zg, env.now.tz = some zg)
    (hrtz : ∃ zr, r.timestamp.tz = some zr)
    (hput : env.putResults = []) :
    bm.monitor env =
      ([{ nspace := CLOUDWATCH_NAMESPACE, metricName := "RestoreLag",
          dimensions := [("Computer", bm.computer), ("Storage", bm.storage),
                         ("StorageUser", bm.user)],
          value := .num (totalSeconds (env.now.epochMicro - r.timestamp.epochMicro)),
          unit := "Seconds" },
        { nspace := CLOUDWATCH_NAMESPACE, metricName := "FileCount",
          dimensions := [("Computer", bm.computer), ("Storage", bm.storage),
                         ("StorageUser", bm.user)],
          value := .num (n : ℚ), unit := "Count" },
        { nspace := CLOUDWATCH_NAMESPACE, metricName := "TotalBytes",
          dimensions := [("Computer", bm.computer), ("Storage", bm.storage),
                         ("StorageUser", bm.user)],
          value := .num (b : ℚ), unit := "Bytes" }], none) := by
  rw [monitor_reaches_put bm env n b r hsize hcopy hfetch hrest hgtz hrtz, hput]
  simp only [put_cloudwatch_metrics, metricDatum]

/-- C6: every monitoring cycle that reaches metric emission produces exactly
three metric records — RestoreLag in Seconds, FileCount in Count with the
generated canary's `num_objects` (the remote object count), and TotalBytes
in Bytes with the generated canary's `total_bytes` — all three carrying the
identical Computer/Storage/StorageUser dimensions. -/
theorem cycle_emits_exactly_three_metrics (bm : BackupMonitor) (env : CycleEnv)
    (n b : Int) (r : Canary)
    (hsize : env.sizeResult = .ok (n, b))
    (hcopy : env.copyUpResult = .ok ())
    (hfetch : env.fetchResult = .ok ())
    (hrest : ∃ rf, env.restoredContent = some (.obj rf) ∧
      object_hook rf = .ok (.canary r))
    (hgtz : ∃ zg, env.now.tz = some zg)
    (hrtz : ∃ zr, r.timestamp.tz = some zr)
    (hput : env.putResults = []) :
    bm.monitor env =
      ([{ nspace := CLOUDWATCH_NAMESPACE, metricName := "RestoreLag",
          dimensions := [("Computer", bm.computer), ("Storage", bm.storage),
                         ("StorageUser", bm.user)],
          value := .num (totalSeconds (env.now.epochMicro - r.timestamp.epochMicro)),
          unit := "Seconds" },
        { nspace := CLOUDWATCH_NAMESPACE, metricName := "FileCount",
          dimensions := [("Computer", bm.computer), ("Storage", bm.storage),
                         ("StorageUser", bm.user)],
          value := .num (n : ℚ), unit := "Count" },
        { nspace := CLOUDWATCH_NAMESPACE, metricName := "TotalBytes",
          dimensions := [("Computer", bm.computer), ("Storage", bm.storage),
                         ("StorageUser", bm.user)],
          value := .num (b : ℚ), unit := "Bytes" }], none) ∧
    (bm.monitor env).1.length = 3 ∧
    ∀ d ∈ (bm.monitor env).1,
      d.dimensions = [("Computer", bm.computer), ("Storage", bm.storage),
                      ("StorageUser", bm.user)] := by
  have h := monitor_success bm env n b r hsize hcopy hfetch hrest hgtz hrtz hput
  refine ⟨h, by rw [h]; rfl, ?_⟩
  rw [h]
  intro d hd
  simp only [List.mem_cons, List.not_mem_nil, or_false] at hd
  rcases hd with rfl | rfl | rfl
  · rfl
  · rfl
  · rfl

/-- Witness for C6: the healthy example cycle with `num_objects = 42` and
`total_bytes = 1048576` emits exactly the three records with identical
dimensions and no exception. -/
theorem cycle_emits_exactly_three_metrics_witness :
    (BackupMonitor.init "comp1" "dropbox" "johnl").monitor envOK =
      ([{ nspace := CLOUDWATCH_NAMESPACE, metricName := "RestoreLag",
          dimensions := [("Computer", (BackupMonitor.init "comp1" "dropbox" "johnl").computer),
                         ("Storage", (BackupMonitor.init "comp1" "dropbox" "johnl").storage),
                         ("StorageUser", (BackupMonitor.init "comp1" "dropbox" "johnl").user)],
          value := .num (totalSeconds (envOK.now.epochMicro - canaryRes.timestamp.epochMicro)),
          unit := "Seconds" },
        { nspace := CLOUDWATCH_NAMESPACE, metricName := "FileCount",
          dimensions := [("Computer", (BackupMonitor.init "comp1" "dropbox" "johnl").computer),
                         ("Storage", (BackupMonitor.init "comp1" "dropbox" "johnl").storage),
                         ("StorageUser", (BackupMonitor.init "comp1" "dropbox" "johnl").user)],
          value := .num ((42 : Int) : ℚ), unit := "Count" },
        { nspace := CLOUDWATCH_NAMESPACE, metricName := "TotalBytes",
          dimensions := [("Computer", (BackupMonitor.init "comp1" "dropbox" "johnl").computer),
                         ("Storage", (BackupMonitor.init "comp1" "dropbox" "johnl").storage),
                         ("StorageUser", (BackupMonitor.init "comp1" "dropbox" "johnl").user)],
          value := .num ((1048576 : Int) : ℚ), unit := "Bytes" }], none) :=
  (cycle_emits_exactly_three_metrics (BackupMonitor.init "comp1" "dropbox" "johnl")
    envOK 42 1048576 canaryRes rfl rfl rfl
    ⟨CanaryEncoder_default canaryRes, rfl, object_hook_encode canaryRes (by decide)⟩
    ⟨0, rfl⟩ ⟨0, rfl⟩ rfl).1

/-- C5: the RestoreLag a cycle emits is the exact subtraction
`generated.timestamp - restored.timestamp` expressed in seconds; in
particular `2024-01-02T10:00:00+00:00` minus `2024-01-02T09:55:30+00:00`
is a timedelta of 270000000 microseconds, i.e. 270.0 seconds. -/
theorem restore_lag_exact_subtraction :
    (∀ (bm : BackupMonitor) (env : CycleEnv) (n b : Int) (r : Canary),
      env.sizeResult = .ok (n, b) → env.copyUpResult = .ok () →
      env.fetchResult = .ok () →
      (∃ rf, env.restoredContent = some (.obj rf) ∧
        object_hook rf = .ok (.canary r)) →
      (∃ zg, env.now.tz = some zg) → (∃ zr, r.timestamp.tz = some zr) →
      env.putResults = [] →
      (bm.monitor env).1.head? = some
        { nspace := CLOUDWATCH_NAMESPACE, metricName := "RestoreLag",
          dimensions := [("Computer", bm.computer), ("Storage", bm.storage),
                         ("StorageUser", bm.user)],
          value := .num (((env.now.epochMicro - r.timestamp.epochMicro : Int) : ℚ)
            / 1000000),
          unit := "Seconds" }) ∧
    pyDateTimeSub dtGen dtRes = .ok 270000000 ∧
    totalSeconds 270000000 = 270 := by
  refine ⟨?_, rfl, by norm_num [totalSeconds]⟩
  intro bm env n b r hsize hcopy hfetch hrest hgtz hrtz hput
  rw [monitor_success bm env n b r hsize hcopy hfetch hrest hgtz hrtz hput]
  rfl

/-- Witness for C5 at the healthy example cycle. -/
theorem restore_lag_exact_subtraction_witness :
    ((BackupMonitor.init "comp1" "dropbox" "johnl").monitor envOK).1.head? = some
      { nspace := CLOUDWATCH_NAMESPACE, metricName := "RestoreLag",
        dimensions :=
          [("Computer", (BackupMonitor.init "comp1" "dropbox" "johnl").computer),
           ("Storage", (BackupMonitor.init "comp1" "dropbox" "johnl").storage),
           ("StorageUser", (BackupMonitor.init "comp1" "dropbox" "johnl").user)],
        value := .num (((envOK.now.epochMicro - canaryRes.timestamp.epochMicro : Int) : ℚ)
          / 1000000),
        unit := "Seconds" } :=
  restore_lag_exact_subtraction.1 (BackupMonitor.init "comp1" "dropbox" "johnl")
    envOK 42 1048576 canaryRes rfl rfl rfl
    ⟨CanaryEncoder_default canaryRes, rfl, object_hook_encode canaryRes (by decide)⟩
    ⟨0, rfl⟩ ⟨0, rfl⟩ rfl

/-- C7: when the generated timestamp is earlier than the restored one, the
computed lag is negative and is passed through to the metrics layer
unmodified — the emitted RestoreLag record carries exactly that negative
value, no clamping happens and no error is raised. -/
theorem negative_lag_passed_through (bm : BackupMonitor) (env : CycleEnv)
    (n b : Int) (r : Canary)
    (hsize : env.sizeResult = .ok (n, b))
    (hcopy : env.copyUpResult = .ok ())
    (hfetch : env.fetchResult = .ok ())
    (hrest : ∃ rf, env.restoredContent = some (.obj rf) ∧
      object_hook rf = .ok (.canary r))
    (hgtz : ∃ zg, env.now.tz = some zg)
    (hrtz : ∃ zr, r.timestamp.tz = some zr)
    (hput : env.putResults = [])
    (hlt : env.now.epochMicro < r.timestamp.epochMicro) :
    totalSeconds (env.now.epochMicro - r.timestamp.epochMicro) < 0 ∧
    (bm.monitor env).1.head? = some
      { nspace := CLOUDWATCH_NAMESPACE, metricName := "RestoreLag",
        dimensions := [("Computer", bm.computer), ("Storage", bm.storage),
                       ("StorageUser", bm.user)],
        value := .num (totalSeconds (env.now.epochMicro - r.timestamp.epochMicro)),
        unit := "Seconds" } ∧
    (bm.monitor env).2 = none := by
  have h := monitor_success bm env n b r hsize hcopy hfetch hrest hgtz hrtz hput
  refine ⟨?_, by rw [h]; rfl, by rw [h]⟩
  unfold totalSeconds
  apply div_neg_of_neg_of_pos
  · exact_mod_cast show env.now.epochMicro - r.timestamp.epochMicro < 0 by omega
  · norm_num

/-- Witness for C7: generated at 09:00, restored stamped 09:55:30 — the
emitted lag is negative (−3330 seconds) and nothing is raised. -/
theorem negative_lag_passed_through_witness :
    totalSeconds (envLagNeg.now.epochMicro - canaryRes.timestamp.epochMicro) < 0 ∧
    ((BackupMonitor.init "comp1" "dropbox" "johnl").monitor envLagNeg).1.head? = some
      { nspace := CLOUDWATCH_NAMESPACE, metricName := "RestoreLag",
        dimensions :=
          [("Computer", (BackupMonitor.init "comp1" "dropbox" "johnl").computer),
           ("Storage", (BackupMonitor.init "comp1" "dropbox" "johnl").storage),
           ("StorageUser", (BackupMonitor.init "comp1" "dropbox" "johnl").user)],
        value := .num (totalSeconds
          (envLagNeg.now.epochMicro - canaryRes.timestamp.epochMicro)),
        unit := "Seconds" } ∧
    ((BackupMonitor.init "comp1" "dropbox" "johnl").monitor envLagNeg).2 = none :=
  negative_lag_passed_through (BackupMonitor.init "comp1" "dropbox" "johnl")
    envLagNeg 42 1048576 canaryRes rfl rfl rfl
    ⟨CanaryEncoder_default canaryRes, rfl, object_hook_encode canaryRes (by decide)⟩
    ⟨0, rfl⟩ ⟨0, rfl⟩ rfl (by decide)

/-- The top-level loop re-raises the first per-target exception: the failing
target's partial output is recorded and the remaining targets are never
reached. -/
theorem monitor_cons_fail (p : TargetConfig × CycleEnv)
    (rest : List (TargetConfig × CycleEnv)) (e : PyExc)
    (h : (runTarget p).2 = some e) :
    monitor (p :: rest) = ([(p.1.computer, (runTarget p).1)], some e) := by
  simp only [monitor, h]

/-- The top-level loop continues past a target whose cycle raised nothing. -/
theorem monitor_cons_ok (p : TargetConfig × CycleEnv)
    (rest : List (TargetConfig × CycleEnv))
    (h : (runTarget p).2 = none) :
    monitor (p :: rest) =
      ((p.1.computer, (runTarget p).1) :: (monitor rest).1, (monitor rest).2) := by
  simp only [monitor, h]

/-- C2 (amended): when the restored canary object does not exist yet, no
RestoreLag (or any other) metric is emitted for the target — but the
resulting `FileNotFoundError` escapes the per-target boundary: the cycle
raises, the top-level loop re-raises, and subsequent configured targets are
not processed. -/
theorem restored_missing_aborts_run (env : CycleEnv)
    (hsize : ∃ nb, env.sizeResult = .ok nb)
    (hcopy : env.copyUpResult = .ok ())
    (hfetch : env.fetchResult = .ok ())
    (hnone : env.restoredContent = none) :
    (∀ bm : BackupMonitor, bm.monitor env = ([], some .fileNotFoundError)) ∧
    (∀ (cfg : TargetConfig) (rest : List (TargetConfig × CycleEnv)),
      monitor ((cfg, env) :: rest) =
        ([(cfg.computer, [])], some .fileNotFoundError)) := by
  obtain ⟨⟨n, b⟩, hs⟩ := hsize
  have h1 : ∀ bm : BackupMonitor, bm.monitor env = ([], some .fileNotFoundError) := by
    intro bm
    simp only [BackupMonitor.monitor, generate_canary_file, create_canary, hs,
      load_restored_canary_file, hcopy, hfetch, hnone]
  refine ⟨h1, fun cfg rest => ?_⟩
  have hrt : runTarget (cfg, env) = ([], some .fileNotFoundError) :=
    h1 (BackupMonitor.init cfg.computer cfg.storage cfg.user)
  rw [monitor_cons_fail (cfg, env) rest .fileNotFoundError (by rw [hrt]), hrt]

/-- C2 counterexample: with the restored file missing for target 1, the run
raises `FileNotFoundError` out of the per-target boundary and target 2 is
never processed — the cycle does not complete quietly and the run does not
proceed. -/
theorem restored_missing_cex :
    monitor [(cfg1, envNoRestored), (cfg2, envOK)] =
      ([("comp1", [])], some .fileNotFoundError) ∧
    "comp2" ∉ (monitor [(cfg1, envNoRestored), (cfg2, envOK)]).1.map Prod.fst := by
  exact ⟨rfl, by decide⟩

/-- Witness for the amended C2. -/
theorem restored_missing_aborts_run_witness :
    (BackupMonitor.init "comp1" "dropbox" "johnl").monitor envNoRestored =
      ([], some .fileNotFoundError) :=
  (restored_missing_aborts_run envNoRestored ⟨(42, 1048576), rfl⟩ rfl rfl rfl).1
    (BackupMonitor.init "comp1" "dropbox" "johnl")

/-- C1 (amended): when one target's cycle fails (for example its transport
subprocess invocation raises), the targets *before* it in the configuration
list are fully processed, but the exception propagates out of the run after
logging — the failing target's partial output is the last one, and every
target *after* it is never processed. -/
theorem run_stops_at_first_failing_target
    (pre : List (TargetConfig × CycleEnv)) (p : TargetConfig × CycleEnv)
    (post : List (TargetConfig × CycleEnv)) (e : PyExc)
    (hpre : ∀ q ∈ pre, (runTarget q).2 = none)
    (hfail : (runTarget p).2 = some e) :
    monitor (pre ++ p :: post) =
      ((pre.map fun q => (q.1.computer, (runTarget q).1)) ++
        [(p.1.computer, (runTarget p).1)], some e) := by
  induction pre with
  | nil =>
    simp only [List.nil_append, List.map_nil]
    exact monitor_cons_fail p post e hfail
  | cons q pre' ih =>
    have hq := hpre q (List.mem_cons_self q pre')
    have ih' := ih fun q' hq' => hpre q' (List.mem_cons_of_mem q hq')
    rw [List.cons_append, monitor_cons_ok q _ hq, ih']
    simp

/-- C1 counterexample: in a three-target run where target 2's fetch
invocation raises `OSError`, target 3 is never processed and the exception
escapes the whole run. -/
theorem run_stops_cex :
    "comp3" ∉
      (monitor [(cfg1, envOK), (cfg2, envFetchRaises), (cfg3, envOK)]).1.map Prod.fst ∧
    (monitor [(cfg1, envOK), (cfg2, envFetchRaises), (cfg3, envOK)]).2 =
      some .osError := by
  exact ⟨by decide, rfl⟩

/-- Witness for the amended C1 on the three-target example. -/
theorem run_stops_at_first_failing_target_witness :
    monitor [(cfg1, envOK), (cfg2, envFetchRaises), (cfg3, envOK)] =
      (([(cfg1, envOK)].map fun q => (q.1.computer, (runTarget q).1)) ++
        [((cfg2, envFetchRaises).1.computer, (runTarget (cfg2, envFetchRaises)).1)],
       some .osError) :=
  run_stops_at_first_failing_target [(cfg1, envOK)] (cfg2, envFetchRaises)
    [(cfg3, envOK)] .osError
    (fun q hq => by
      simp only [List.mem_singleton] at hq
      subst hq
      rfl)
    rfl

/-- C8 (amended): a failure while putting one metric stops the plain `for`
loop — the remaining metrics of that cycle are never sent — and the
exception propagates out of the cycle, so the top-level run re-raises and
subsequent targets are not processed. -/
theorem metric_put_failure_blocks_rest :
    (∀ (bm : BackupMonitor) (m1 m2 : CloudwatchMetric) (ms : List CloudwatchMetric)
        (e : PyExc) (os : List (Option PyExc)),
      put_cloudwatch_metrics bm (m1 :: m2 :: ms) (none :: some e :: os) =
        ([metricDatum bm m1], some e)) ∧
    (∀ (p : TargetConfig × CycleEnv) (rest : List (TargetConfig × CycleEnv))
        (e : PyExc),
      (runTarget p).2 = some e →
      monitor (p :: rest) = ([(p.1.computer, (runTarget p).1)], some e)) := by
  constructor
  · intro bm m1 m2 ms e os
    simp only [put_cloudwatch_metrics]
  · exact monitor_cons_fail

/-- C8 counterexample: with the second `put_metric_data` call raising, only
the first of the three metrics is emitted and the second configured target
is never processed. -/
theorem metric_put_failure_cex :
    ((BackupMonitor.init "comp1" "dropbox" "johnl").monitor envPutFails).1.length = 1 ∧
    ((BackupMonitor.init "comp1" "dropbox" "johnl").monitor envPutFails).2 =
      some .clientError ∧
    "comp2" ∉ (monitor [(cfg1, envPutFails), (cfg2, envOK)]).1.map Prod.fst := by
  exact ⟨rfl, rfl, by decide⟩

/-- Witness for the amended C8. -/
theorem metric_put_failure_blocks_rest_witness :
    put_cloudwatch_metrics (BackupMonitor.init "comp1" "dropbox" "johnl")
      [{ name := "RestoreLag", value := .num 270, unit := "Seconds" },
       { name := "FileCount", value := .num 42, unit := "Count" },
       { name := "TotalBytes", value := .num 1048576, unit := "Bytes" }]
      [none, some .clientError] =
      ([metricDatum (BackupMonitor.init "comp1" "dropbox" "johnl")
          { name := "RestoreLag", value := .num 270, unit := "Seconds" }],
       some .clientError) :=
  metric_put_failure_blocks_rest.1 (BackupMonitor.init "comp1" "dropbox" "johnl")
    { name := "RestoreLag", value := .num 270, unit := "Seconds" }
    { name := "FileCount", value := .num 42, unit := "Count" }
    [{ name := "TotalBytes", value := .num 1048576, unit := "Bytes" }]
    .clientError []

/-- String append is associative (component lists append associatively). -/
theorem strAppend_assoc (a b c : String) : a ++ b ++ c = a ++ (b ++ c) := by
  rcases a with ⟨la⟩
  rcases b with ⟨lb⟩
  rcases c with ⟨lc⟩
  show String.mk (la ++ lb ++ lc) = String.mk (la ++ (lb ++ lc))
  rw [List.append_assoc]

/-- C9: for every target, the generated canary is deposited at
`{remote_id}:/backup-monitor/{computer}/{remote_id}/generated/canary.json`
and the restored canary is fetched from the same prefix under
`restored/canary.json`, where `remote_id = "{storage}-{user}"` and the fixed
remote base directory is `backup-monitor`. -/
theorem canary_remote_paths (computer storage user : String) :
    remote_generated_object (BackupMonitor.init computer storage user) =
      (storage ++ "-" ++ user) ++ ":/" ++ "backup-monitor" ++ "/" ++ computer ++
        "/" ++ (storage ++ "-" ++ user) ++ "/generated" ++ "/" ++ "canary.json" ∧
    remote_restored_file (BackupMonitor.init computer storage user) =
      (storage ++ "-" ++ user) ++ ":/" ++ "backup-monitor" ++ "/" ++ computer ++
        "/" ++ (storage ++ "-" ++ user) ++ "/restored/" ++ "canary.json" := by
  constructor <;>
    simp only [remote_generated_object, remote_generated_path, remote_restored_file,
      get_remote_working_path, BackupMonitor.init, BACKUP_REMOTE_BASE,
      CANARY_FILENAME, strAppend_assoc]
